import Mathlib

/-!
Verification of the authentication controller
(`src/backend/controllers/authController.js`).

The controller implements three operations — `register`, `login`, `getMe` —
over an external user store and an external token signer.  The store, the
password-hash comparison and the token signer are collaborators whose code is
not part of the repository fragment; where their behaviour is needed it is
modelled from the specification (each such definition carries a
`Modelled from the spec:` doc comment).  Everything else is a direct shallow
embedding of the JavaScript source.

JavaScript truthiness of the request/record fields is modelled explicitly:
an optional string field is truthy when it is present and non-empty, and an
optional numeric field is truthy when it is present and non-zero.
-/

namespace AuthController

/-- JS truthiness for an optional string field (`undefined`, `null` and `""`
are falsy). -/
def truthyS : Option String → Bool
  | none => false
  | some s => s != ""

/-- JS truthiness for an optional numeric field (`undefined`, `null` and `0`
are falsy). -/
def truthyN : Option Nat → Bool
  | none => false
  | some n => n != 0

/-- A stored user record, as held by the user store.  The `password` field is
the stored salted hash; the store hides it from default projections, but the
controller requests it explicitly (`.select('+password')`), so the record
type carries it and sanitization happens in the response shaping. -/
structure StoredUser where
  _id : Nat
  name : String
  email : String
  password : String
  phone : Option String
  age : Option Nat
  gender : Option String
  role : String
  createdAt : Nat
  deriving DecidableEq, Repr

/-- The body of a `POST /api/auth/register` request, after the destructuring
`const { name, email, password, phone, age, gender } = req.body`.  A missing
field is `none`. -/
structure RegisterReq where
  name : Option String
  email : Option String
  password : Option String
  phone : Option String
  age : Option Nat
  gender : Option String
  deriving DecidableEq, Repr

/-- The body of a `POST /api/auth/login` request. -/
structure LoginReq where
  email : Option String
  password : Option String
  deriving DecidableEq, Repr

/-- External collaborators of the controller: the store-layer password hash
(the spec assumes a verified hash compare supplied by a library), the fresh
id the store assigns on `create`, and the creation timestamp. -/
structure Env where
  hash : String → String
  freshId : Nat
  now : Nat

/-- JWT configuration (`config/jwt`): the signing secret and the configured
expiry. -/
structure JwtConfig where
  secret : String
  expiresIn : Nat
  deriving DecidableEq, Repr

/-- The claim set the controller passes to the signer: `jwt.sign({ id }, ...)`
signs exactly the object `{ id }`. -/
structure TokenClaims where
  id : Nat
  deriving DecidableEq, Repr

/-- Modelled from the spec: the token signer (`jsonwebtoken`, an external
collaborator) produces a signed token embedding the given claim set together
with an expiry drawn from the `expiresIn` option; the secret produces the
signature and contributes no claim. -/
structure SignedToken where
  claims : TokenClaims
  exp : Nat
  deriving DecidableEq, Repr

/-- Modelled from the spec: `Token Issuer exposes sign(claims, secret,
{expiresIn}) -> string`.  The secret only signs; the claim set of the result
is the claim set passed in, plus the expiry. -/
def jwtSign (claims : TokenClaims) (_secret : String) (expiresIn : Nat) :
    SignedToken :=
  { claims := claims, exp := expiresIn }

/-- `generateToken` (authController.js lines 16–20): sign `{ id }` with the
configured secret and expiry. -/
def generateToken (cfg : JwtConfig) (id : Nat) : SignedToken :=
  jwtSign { id := id } cfg.secret cfg.expiresIn

/-- Modelled from the spec: `User.findOne({ email })` — unique-email lookup
in the store, here the first record whose `email` equals the requested one.
A missing request email matches nothing. -/
def findOne (db : List StoredUser) (email : Option String) : Option StoredUser :=
  db.find? (fun u => email == some u.email)

/-- Modelled from the spec: `User.findById(id)` — lookup by record id. -/
def findById (db : List StoredUser) (id : Nat) : Option StoredUser :=
  db.find? (fun u => u._id == id)

/-- Modelled from the spec: `existingUser.comparePassword(plaintext)` — the
store layer's verified hash compare: the plaintext hashes to the stored
hash. -/
def comparePassword (env : Env) (u : StoredUser) (plain : String) : Bool :=
  env.hash plain == u.password

/-- Modelled from the spec: `User.create({...})` — the store creates a record
with the given fields, hashing the password before persistence, assigning a
fresh id, the default role ("patient") and the creation timestamp. -/
def createUser (env : Env) (req : RegisterReq) : StoredUser :=
  { _id := env.freshId
    name := req.name.getD ""
    email := req.email.getD ""
    password := env.hash (req.password.getD "")
    phone := req.phone
    age := req.age
    gender := req.gender
    role := "patient"
    createdAt := env.now }

/-- Modelled from the spec: `existingUser.save()` — persist the mutated
document in place: every stored record with the document's id is replaced by
the document. -/
def saveReplace (db : List StoredUser) (u : StoredUser) : List StoredUser :=
  db.map (fun v => if v._id == u._id then u else v)

/-- The sanitized user view returned by `register` and `login`
(id, name, email, role, phone — no password field exists in this shape). -/
structure UserView where
  id : Nat
  name : String
  email : String
  role : String
  phone : Option String
  deriving DecidableEq, Repr

/-- The sanitized user view returned by `getMe`
(id, name, email, role, createdAt — no password field exists in this shape). -/
structure MeView where
  id : Nat
  name : String
  email : String
  role : String
  createdAt : Nat
  deriving DecidableEq, Repr

/-- Projection of a record to the `register`/`login` response shape. -/
def userView (u : StoredUser) : UserView :=
  { id := u._id, name := u.name, email := u.email, role := u.role,
    phone := u.phone }

/-- Projection of a record to the `getMe` response shape. -/
def meView (u : StoredUser) : MeView :=
  { id := u._id, name := u.name, email := u.email, role := u.role,
    createdAt := u.createdAt }

/-- Outcome of `register` or `login`: either `res.status(s).json({...})` with
the sanitized user view and the token, or `next(new AppError(message,
statusCode))`. -/
inductive HttpResult where
  | json (status : Nat) (message : String) (user : UserView)
      (token : SignedToken)
  | nextAppError (message : String) (status : Nat)
  deriving DecidableEq, Repr

/-- A raw JavaScript runtime error (not an `AppError`), as forwarded by the
`catch (error) { next(error) }` boundary. -/
inductive JsError where
  | typeError (message : String)
  deriving DecidableEq, Repr

/-- Outcome of `getMe`: a 200 response with the sanitized view, a typed
`AppError` passed to `next`, or a raw runtime error passed to `next`. -/
inductive GetMeResult where
  | json (status : Nat) (user : MeView)
  | nextAppError (message : String) (status : Nat)
  | nextError (e : JsError)
  deriving DecidableEq, Repr

/-- The backfill block of `register` (authController.js lines 51–67): fill
each of phone/age/gender when the request value is truthy and the stored
value is falsy, tracking `profileUpdated`.  Returns the (possibly mutated)
document and the `profileUpdated` flag. -/
def backfill (existingUser : StoredUser) (req : RegisterReq) :
    StoredUser × Bool :=
  let profileUpdated := false
  let step1 :=
    if truthyS req.phone && ! truthyS existingUser.phone then
      ({ existingUser with phone := req.phone }, true)
    else (existingUser, profileUpdated)
  let step2 :=
    if truthyN req.age && ! truthyN step1.1.age then
      ({ step1.1 with age := req.age }, true)
    else step1
  let step3 :=
    if truthyS req.gender && ! truthyS step2.1.gender then
      ({ step2.1 with gender := req.gender }, true)
    else step2
  step3

/-- `register` (authController.js lines 27–116).  Returns the HTTP outcome
together with the store state after the call. -/
def register (env : Env) (cfg : JwtConfig) (req : RegisterReq)
    (db : List StoredUser) : HttpResult × List StoredUser :=
  match findOne db req.email with
  | some existingUser =>
    if ! truthyS req.password then
      (.nextAppError "Account already exists with this email. Please login." 400,
       db)
    else
      let isSamePassword := comparePassword env existingUser (req.password.getD "")
      if ! isSamePassword then
        (.nextAppError
          "Account already exists with this email. Please login with your original password."
          400, db)
      else
        let r := backfill existingUser req
        let db2 := if r.2 then saveReplace db r.1 else db
        (.json 200 "Existing patient recognized. Logged in successfully."
          (userView r.1) (generateToken cfg r.1._id), db2)
  | none =>
    let user := createUser env req
    (.json 201 "User registered successfully" (userView user)
      (generateToken cfg user._id), db ++ [user])

/-- `login` (authController.js lines 123–159).  The store is never written,
so only the HTTP outcome is returned. -/
def login (env : Env) (cfg : JwtConfig) (req : LoginReq)
    (db : List StoredUser) : HttpResult :=
  if ! truthyS req.email || ! truthyS req.password then
    .nextAppError "Please provide email and password" 400
  else
    match findOne db req.email with
    | none => .nextAppError "Invalid credentials" 401
    | some user =>
      if ! comparePassword env user (req.password.getD "") then
        .nextAppError "Invalid credentials" 401
      else
        .json 200 "Login successful" (userView user)
          (generateToken cfg user._id)

/-- `getMe` (authController.js lines 166–185).  When `findById` misses, the
source dereferences the `null` result (`user._id`), so the thrown `TypeError`
is caught and forwarded to `next(error)` as a raw error, not as a typed
`AppError`. -/
def getMe (db : List StoredUser) (authenticatedId : Nat) : GetMeResult :=
  match findById db authenticatedId with
  | some user => .json 200 (meView user)
  | none =>
    .nextError (.typeError "Cannot read properties of null (reading id)")

/-- Number of stored records carrying a given email. -/
def countEmail (db : List StoredUser) (e : String) : Nat :=
  (db.filter (fun v => v.email == e)).length

/-- A concrete environment for evaluating the operations: the identity as the
(modelled) password hash, fresh id 7, timestamp 3. -/
def sampleEnv : Env :=
  { hash := fun s => s, freshId := 7, now := 3 }

/-- A concrete JWT configuration. -/
def sampleCfg : JwtConfig :=
  { secret := "secret", expiresIn := 60 }

/-- A concrete stored user whose optional contact fields are all absent.
Its stored hash is the `sampleEnv` hash of the plaintext "pw1". -/
def sampleUser : StoredUser :=
  { _id := 1, name := "Alice", email := "alice@example.com", password := "pw1",
    phone := none, age := none, gender := none, role := "patient",
    createdAt := 0 }

/-- A concrete duplicate-registration request for `sampleUser`'s email with
the matching password and all optional contact fields supplied. -/
def sampleDupReq : RegisterReq :=
  { name := some "Alice", email := some "alice@example.com",
    password := some "pw1", phone := some "0123", age := some 30,
    gender := some "f" }

/-- A concrete registration request for an email absent from the store. -/
def sampleNewReq : RegisterReq :=
  { name := some "Bob", email := some "bob@example.com",
    password := some "pw2", phone := some "0456", age := some 40,
    gender := some "m" }

/-- `sampleUser` with its phone already set. -/
def samplePhoneUser : StoredUser :=
  { sampleUser with phone := some "0111" }

/-- A duplicate-registration request with a non-matching password. -/
def sampleWrongPwReq : RegisterReq :=
  { sampleDupReq with password := some "not-pw1" }

/-- A duplicate-registration request with no password supplied. -/
def sampleNoPwReq : RegisterReq :=
  { sampleDupReq with password := none }

/-- A login request for `sampleUser`'s password but an unknown email. -/
def sampleUnknownLogin : LoginReq :=
  { email := some "nobody@example.com", password := some "pw1" }

/-! ### Helper lemmas -/

/-- Exhaustive characterization of the backfill block: each optional field is
written exactly when the request value is truthy and the stored value is
falsy, `profileUpdated` is the disjunction of the three guards, and every
other field of the document is untouched. -/
theorem backfill_spec (u : StoredUser) (req : RegisterReq) :
    (backfill u req).1.phone =
      (if truthyS req.phone && ! truthyS u.phone then req.phone else u.phone) ∧
    (backfill u req).1.age =
      (if truthyN req.age && ! truthyN u.age then req.age else u.age) ∧
    (backfill u req).1.gender =
      (if truthyS req.gender && ! truthyS u.gender then req.gender
       else u.gender) ∧
    (backfill u req).2 =
      ((truthyS req.phone && ! truthyS u.phone) ||
       (truthyN req.age && ! truthyN u.age) ||
       (truthyS req.gender && ! truthyS u.gender)) ∧
    (backfill u req).1._id = u._id ∧
    (backfill u req).1.name = u.name ∧
    (backfill u req).1.email = u.email ∧
    (backfill u req).1.password = u.password ∧
    (backfill u req).1.role = u.role ∧
    (backfill u req).1.createdAt = u.createdAt := by
  unfold backfill
  dsimp only
  split <;> split <;> split <;> simp_all

/-- A record returned by `findOne` is a member of the store. -/
theorem findOne_mem {db : List StoredUser} {e : Option String}
    {u : StoredUser} (h : findOne db e = some u) : u ∈ db :=
  List.mem_of_find?_eq_some h

/-- `saveReplace` preserves the number of stored records. -/
theorem saveReplace_length (db : List StoredUser) (u : StoredUser) :
    (saveReplace db u).length = db.length := by
  simp [saveReplace]

/-- `countEmail` over a cons. -/
theorem countEmail_cons (v : StoredUser) (tl : List StoredUser) (e : String) :
    countEmail (v :: tl) e =
      (if v.email == e then 1 else 0) + countEmail tl e := by
  simp only [countEmail, List.filter_cons]
  split <;> simp [Nat.add_comm]

/-- Mapping a function over the store that preserves every member's email
preserves every email count. -/
theorem countEmail_map (db : List StoredUser) (f : StoredUser → StoredUser)
    (h : ∀ v ∈ db, (f v).email = v.email) (e : String) :
    countEmail (db.map f) e = countEmail db e := by
  induction db with
  | nil => rfl
  | cons v tl ih =>
    have hv : (f v).email = v.email := h v (List.mem_cons_self v tl)
    rw [List.map_cons, countEmail_cons, countEmail_cons, hv,
      ih (fun w hw => h w (List.mem_cons_of_mem _ hw))]

/-- When record ids are unique in the store, saving a document that keeps the
email of the record it replaces preserves every email count. -/
theorem countEmail_saveReplace {db : List StoredUser} {u : StoredUser}
    (hnodup : (db.map (fun v => v._id)).Nodup) (hmem : u ∈ db)
    (u2 : StoredUser) (hid : u2._id = u._id) (hemail : u2.email = u.email)
    (e : String) :
    countEmail (saveReplace db u2) e = countEmail db e := by
  apply countEmail_map
  intro v hv
  by_cases hc : v._id = u2._id
  · have hvu : v = u :=
      List.inj_on_of_nodup_map hnodup hv hmem (by rw [hc, hid])
    simp [hvu, hid, hemail]
  · simp [hc]

/-! ### Claim theorems -/

/-- C1: for every login request that supplies both fields, if the email
matches no stored user, or it matches one whose stored hash the supplied
password fails to verify against, the response is the identical generic
"Invalid credentials" error with HTTP status 401, so the two failure causes
are indistinguishable to the caller. -/
theorem login_enumeration_safe (env : Env) (cfg : JwtConfig)
    (db : List StoredUser) (req : LoginReq)
    (hemail : truthyS req.email = true) (hpass : truthyS req.password = true)
    (hfail : findOne db req.email = none ∨
      ∃ u, findOne db req.email = some u ∧
        comparePassword env u (req.password.getD "") = false) :
    login env cfg req db = .nextAppError "Invalid credentials" 401 := by
  rcases hfail with h | ⟨u, hu, hcmp⟩
  · simp [login, hemail, hpass, h]
  · simp [login, hemail, hpass, hu, hcmp]

/-- Witness for C1: a concrete failing login (unknown email) produces the
generic 401. -/
theorem login_enumeration_safe_witness :
    login sampleEnv sampleCfg sampleUnknownLogin [sampleUser] =
      .nextAppError "Invalid credentials" 401 :=
  login_enumeration_safe sampleEnv sampleCfg [sampleUser] sampleUnknownLogin
    (by decide) (by decide) (Or.inl (by decide))

/-- C2: a register call on an existing email whose supplied password verifies
backfills only the absent-and-supplied contact fields, writes to the store
only if something changed, mints a token for the existing user's id, and
responds HTTP 200 with the "existing patient recognized" message and the
sanitized view; the number of stored records — and of records with that
email — is unchanged, so no second record is created. -/
theorem register_duplicate_match (env : Env) (cfg : JwtConfig)
    (req : RegisterReq) (db : List StoredUser) (eu : StoredUser)
    (hnodup : (db.map (fun v => v._id)).Nodup)
    (hfind : findOne db req.email = some eu)
    (hpass : truthyS req.password = true)
    (hcmp : comparePassword env eu (req.password.getD "") = true) :
    register env cfg req db =
      (.json 200 "Existing patient recognized. Logged in successfully."
        (userView (backfill eu req).1) (generateToken cfg eu._id),
       if (backfill eu req).2 then saveReplace db (backfill eu req).1
       else db) ∧
    (backfill eu req).1.phone =
      (if truthyS req.phone && ! truthyS eu.phone then req.phone
       else eu.phone) ∧
    (backfill eu req).1.age =
      (if truthyN req.age && ! truthyN eu.age then req.age else eu.age) ∧
    (backfill eu req).1.gender =
      (if truthyS req.gender && ! truthyS eu.gender then req.gender
       else eu.gender) ∧
    (register env cfg req db).2.length = db.length ∧
    ((backfill eu req).2 = false → (register env cfg req db).2 = db) ∧
    countEmail (register env cfg req db).2 eu.email =
      countEmail db eu.email := by
  obtain ⟨hp, ha, hg, -, hid, -, hem, -, -, -⟩ := backfill_spec eu req
  have hreg : register env cfg req db =
      (.json 200 "Existing patient recognized. Logged in successfully."
        (userView (backfill eu req).1) (generateToken cfg eu._id),
       if (backfill eu req).2 then saveReplace db (backfill eu req).1
       else db) := by
    simp [register, hfind, hpass, hcmp, hid]
  refine ⟨hreg, hp, ha, hg, ?_, ?_, ?_⟩
  · rw [hreg]
    dsimp only
    split
    · exact saveReplace_length db (backfill eu req).1
    · rfl
  · intro hflag
    rw [hreg]
    simp [hflag]
  · rw [hreg]
    dsimp only
    split
    · exact countEmail_saveReplace hnodup (findOne_mem hfind)
        (backfill eu req).1 hid hem eu.email
    · rfl

/-- Witness for C2: a concrete recognized-duplicate registration leaves the
store with the same number of records. -/
theorem register_duplicate_match_witness :
    (register sampleEnv sampleCfg sampleDupReq [sampleUser]).2.length = 1 :=
  (register_duplicate_match sampleEnv sampleCfg sampleDupReq [sampleUser]
    sampleUser (by decide) (by decide) (by decide) (by decide)).2.2.2.2.1

/-- C3: a register call whose email matches no stored user appends exactly
one new record built from the given fields, mints a token for the new
record's id, and responds HTTP 201 with the success message and the
sanitized view (id, name, email, role, phone — no password field exists in
the view's shape). -/
theorem register_new_user (env : Env) (cfg : JwtConfig) (req : RegisterReq)
    (db : List StoredUser)
    (hfind : findOne db req.email = none)
    (_hemail : truthyS req.email = true)
    (_hpass : truthyS req.password = true) :
    register env cfg req db =
      (.json 201 "User registered successfully" (userView (createUser env req))
        (generateToken cfg (createUser env req)._id),
       db ++ [createUser env req]) ∧
    (register env cfg req db).2.length = db.length + 1 ∧
    (generateToken cfg (createUser env req)._id).claims.id =
      (createUser env req)._id ∧
    userView (createUser env req) =
      { id := env.freshId, name := req.name.getD "",
        email := req.email.getD "", role := "patient",
        phone := req.phone } := by
  have hreg : register env cfg req db =
      (.json 201 "User registered successfully" (userView (createUser env req))
        (generateToken cfg (createUser env req)._id),
       db ++ [createUser env req]) := by
    simp [register, hfind]
  refine ⟨hreg, ?_, rfl, rfl⟩
  rw [hreg]
  simp

/-- Witness for C3: a concrete fresh registration grows the empty store to
one record. -/
theorem register_new_user_witness :
    (register sampleEnv sampleCfg sampleNewReq []).2.length = 1 :=
  (register_new_user sampleEnv sampleCfg sampleNewReq [] rfl (by decide)
    (by decide)).2.1

/-- C4: backfill is monotonic — a field among phone/age/gender that is
already set (truthy) on the record is never overwritten by the
recognized-duplicate path, whatever the request supplies for it. -/
theorem backfill_monotonic (u : StoredUser) (req : RegisterReq) :
    (truthyS u.phone = true → (backfill u req).1.phone = u.phone) ∧
    (truthyN u.age = true → (backfill u req).1.age = u.age) ∧
    (truthyS u.gender = true → (backfill u req).1.gender = u.gender) := by
  obtain ⟨hp, ha, hg, -, -, -, -, -, -, -⟩ := backfill_spec u req
  refine ⟨fun h => ?_, fun h => ?_, fun h => ?_⟩ <;> simp_all

/-- Witness for C4: a record with its phone set keeps it through a duplicate
registration supplying a different phone. -/
theorem backfill_monotonic_witness :
    (backfill samplePhoneUser sampleDupReq).1.phone = samplePhoneUser.phone :=
  (backfill_monotonic samplePhoneUser sampleDupReq).1 (by decide)

/-- C5: a register call on an existing email whose supplied password does
not verify fails with the "login with your original password" error at HTTP
400 and returns the store exactly as it was — no record, in particular no
stored hash, is mutated. -/
theorem register_duplicate_mismatch (env : Env) (cfg : JwtConfig)
    (req : RegisterReq) (db : List StoredUser) (eu : StoredUser)
    (hfind : findOne db req.email = some eu)
    (hpass : truthyS req.password = true)
    (hcmp : comparePassword env eu (req.password.getD "") = false) :
    register env cfg req db =
      (.nextAppError
        "Account already exists with this email. Please login with your original password."
        400, db) := by
  simp [register, hfind, hpass, hcmp]

/-- Witness for C5: a concrete duplicate registration with the wrong
password yields the 400 challenge and an unchanged store. -/
theorem register_duplicate_mismatch_witness :
    register sampleEnv sampleCfg sampleWrongPwReq [sampleUser] =
      (.nextAppError
        "Account already exists with this email. Please login with your original password."
        400, [sampleUser]) :=
  register_duplicate_mismatch sampleEnv sampleCfg sampleWrongPwReq
    [sampleUser] sampleUser (by decide) (by decide) (by decide)

/-- C6: a register call on an existing email that supplies no password fails
with the "please login" error at HTTP 400; the store is returned unchanged
and the outcome carries no token. -/
theorem register_duplicate_no_password (env : Env) (cfg : JwtConfig)
    (req : RegisterReq) (db : List StoredUser) (eu : StoredUser)
    (hfind : findOne db req.email = some eu)
    (hpass : truthyS req.password = false) :
    register env cfg req db =
      (.nextAppError "Account already exists with this email. Please login."
        400, db) := by
  simp [register, hfind, hpass]

/-- Witness for C6: a concrete duplicate registration without a password
yields the 400 challenge and an unchanged store. -/
theorem register_duplicate_no_password_witness :
    register sampleEnv sampleCfg sampleNoPwReq [sampleUser] =
      (.nextAppError "Account already exists with this email. Please login."
        400, [sampleUser]) :=
  register_duplicate_no_password sampleEnv sampleCfg sampleNoPwReq
    [sampleUser] sampleUser (by decide) (by decide)

/-- C7 (code behaviour at the failing input): when the authenticated id
resolves to no stored record, `getMe` dereferences the missing record, so a
raw `TypeError` — not a typed not-found `AppError` — reaches the error
handler; by the spec's error taxonomy a raw error is an UnexpectedFailure
formatted as HTTP 500, contradicting the claim's required not-found
condition. -/
theorem getMe_miss_unexpected (db : List StoredUser) (id : Nat)
    (h : findById db id = none) :
    getMe db id =
      .nextError (.typeError "Cannot read properties of null (reading id)") ∧
    ∀ m s, getMe db id ≠ .nextAppError m s := by
  refine ⟨by simp [getMe, h], fun m s hc => ?_⟩
  simp [getMe, h] at hc

/-- Witness for C7: `getMe` on the empty store forwards a raw error. -/
theorem getMe_miss_unexpected_witness :
    getMe [] 1 =
      .nextError (.typeError "Cannot read properties of null (reading id)") :=
  (getMe_miss_unexpected [] 1 rfl).1

/-- C8: the signed claim set of every token is exactly `{ id }` plus the
configured expiry, and every token minted by a successful register or login
is the one generated for the responded user's id — no password, email or
other claim is embedded. -/
theorem generateToken_claims :
    (∀ (cfg : JwtConfig) (id : Nat),
      generateToken cfg id =
        { claims := { id := id }, exp := cfg.expiresIn }) ∧
    (∀ (env : Env) (cfg : JwtConfig) (req : LoginReq) (db : List StoredUser)
        (s : Nat) (m : String) (v : UserView) (t : SignedToken),
      login env cfg req db = .json s m v t → t = generateToken cfg v.id) ∧
    (∀ (env : Env) (cfg : JwtConfig) (req : RegisterReq)
        (db : List StoredUser) (s : Nat) (m : String) (v : UserView)
        (t : SignedToken),
      (register env cfg req db).1 = .json s m v t →
        t = generateToken cfg v.id) := by
  refine ⟨fun cfg id => rfl, ?_, ?_⟩
  · intro env cfg req db s m v t h
    unfold login at h
    split at h
    · cases h
    · split at h
      · cases h
      · split at h
        · cases h
        · cases h
          rfl
  · intro env cfg req db s m v t h
    unfold register at h
    split at h
    · split at h
      · cases h
      · dsimp only at h
        split at h
        · cases h
        · cases h
          rfl
    · cases h
      rfl

/-- Witness for C8: a concretely generated token carries exactly the id
claim and the configured expiry. -/
theorem generateToken_claims_witness :
    generateToken sampleCfg 5 = { claims := { id := 5 }, exp := 60 } :=
  generateToken_claims.1 sampleCfg 5

/-- C9: the user object of every successful response is a fixed projection
(`userView` for register/login, `meView` for getMe) that is independent of
the stored password field — so the password, plaintext or hash, never
appears in a response even though register and login fetch the record with
the hidden password included. -/
theorem sanitized_view_no_password :
    (∀ (u : StoredUser) (p : String),
      userView { u with password := p } = userView u) ∧
    (∀ (u : StoredUser) (p : String),
      meView { u with password := p } = meView u) ∧
    (∀ (env : Env) (cfg : JwtConfig) (req : LoginReq) (db : List StoredUser)
        (s : Nat) (m : String) (v : UserView) (t : SignedToken),
      login env cfg req db = .json s m v t →
        ∃ u, findOne db req.email = some u ∧ v = userView u) ∧
    (∀ (db : List StoredUser) (i : Nat) (st : Nat) (v : MeView),
      getMe db i = .json st v →
        ∃ u, findById db i = some u ∧ v = meView u) ∧
    (∀ (env : Env) (cfg : JwtConfig) (req : RegisterReq)
        (db : List StoredUser) (s : Nat) (m : String) (v : UserView)
        (t : SignedToken),
      (register env cfg req db).1 = .json s m v t →
        ∃ u, v = userView u) := by
  refine ⟨fun u p => rfl, fun u p => rfl, ?_, ?_, ?_⟩
  · intro env cfg req db s m v t h
    unfold login at h
    split at h
    · cases h
    · split at h
      · cases h
      · rename_i u hu
        split at h
        · cases h
        · cases h
          exact ⟨u, hu, rfl⟩
  · intro db i st v h
    unfold getMe at h
    split at h
    · rename_i u hu
      cases h
      exact ⟨u, hu, rfl⟩
    · cases h
  · intro env cfg req db s m v t h
    unfold register at h
    split at h
    · split at h
      · cases h
      · dsimp only at h
        split at h
        · cases h
        · cases h
          exact ⟨_, rfl⟩
    · cases h
      exact ⟨_, rfl⟩

/-- Witness for C9: changing a concrete record's stored hash leaves its
sanitized view untouched. -/
theorem sanitized_view_no_password_witness :
    userView { sampleUser with password := "other-hash" } =
      userView sampleUser :=
  sanitized_view_no_password.1 sampleUser "other-hash"

/-- C10: in the recognized-duplicate path each of phone/age/gender is
written exactly when the request value is truthy and the stored value is
falsy — a supplied but falsy value (empty string, age 0) is never written,
and a stored falsy value counts as unset and is overwritten by a truthy
request value; the update flag is the disjunction of the three guards. -/
theorem backfill_truthiness (u : StoredUser) (req : RegisterReq) :
    (backfill u req).1.phone =
      (if truthyS req.phone && ! truthyS u.phone then req.phone
       else u.phone) ∧
    (backfill u req).1.age =
      (if truthyN req.age && ! truthyN u.age then req.age else u.age) ∧
    (backfill u req).1.gender =
      (if truthyS req.gender && ! truthyS u.gender then req.gender
       else u.gender) ∧
    (backfill u req).2 =
      ((truthyS req.phone && ! truthyS u.phone) ||
       (truthyN req.age && ! truthyN u.age) ||
       (truthyS req.gender && ! truthyS u.gender)) := by
  obtain ⟨hp, ha, hg, hflag, -⟩ := backfill_spec u req
  exact ⟨hp, ha, hg, hflag⟩

end AuthController
